import Mathlib

/-!
Shallow embedding of `src/tools/cli-synth.cpp` (friedev/musicli), covering the
pattern-grid editor loop in `main` and the `exportMIDI` routine.

Modelling conventions:
* Characters and ncurses key codes are `Nat` (ASCII / ncurses values:
  KEY_DOWN = 258, KEY_UP = 259, KEY_LEFT = 260, KEY_RIGHT = 261,
  KEY_BACKSPACE = 263, KEY_DC = 330).
* The C++ `int` cursor variables are `Int`; `std::vector::size()` values are
  `Nat`.  Where the source compares an `int` against `size_t` arithmetic the
  usual C++ arithmetic conversions apply (the `int` is converted to the
  unsigned 64-bit type and the subtraction wraps modulo 2^64); this is modelled
  by `intToSizeT` and `sizeSub` below.
* `vector::erase` / `operator[]` on an out-of-range index is undefined
  behaviour in C++; `List.eraseIdx` / `List.set` on an out-of-range index are
  no-ops here.  All reachable uses are in range except the ones the theorems
  below point out.
* MIDI ticks `int(i / 4.0 * tpq)` are modelled as `i * tpq / 4` (Nat floor
  division), which agrees with the double computation on every input the
  program can produce.
-/

namespace Musicli

/-- 2^64, the modulus of `size_t` arithmetic (spelled out so that `omega`
can work with it). -/
def sizeTMod : Nat := 18446744073709551616

/-- C++ conversion of an `int` value to `size_t` (two's-complement wrap). -/
def intToSizeT (i : Int) : Nat := (i % (sizeTMod : Int)).toNat

/-- `size_t` subtraction `n - k`, wrapping modulo 2^64 (for `k ≤ 2^64`). -/
def sizeSub (n k : Nat) : Nat := (n + sizeTMod - k) % sizeTMod

/-- `chToPitch` from the source: keyboard character to MIDI pitch
('z' = C3 = 48 up to 'p' = E5 = 76, everything else 0). -/
def chToPitch (ch : Nat) : Nat :=
  if ch = 122 then 48       -- z, C3
  else if ch = 115 then 49  -- s, C#3
  else if ch = 120 then 50  -- x, D3
  else if ch = 100 then 51  -- d, D#3
  else if ch = 99 then 52   -- c, E3
  else if ch = 118 then 53  -- v, F3
  else if ch = 103 then 54  -- g, F#3
  else if ch = 98 then 55   -- b, G3
  else if ch = 104 then 56  -- h, G#3
  else if ch = 110 then 57  -- n, A3
  else if ch = 106 then 58  -- j, A#3
  else if ch = 109 then 59  -- m, B3
  else if ch = 113 then 60  -- q, C4
  else if ch = 50 then 61   -- 2, C#4
  else if ch = 119 then 62  -- w, D4
  else if ch = 51 then 63   -- 3, D#4
  else if ch = 101 then 64  -- e, E4
  else if ch = 114 then 65  -- r, F4
  else if ch = 53 then 66   -- 5, F#4
  else if ch = 116 then 67  -- t, G4
  else if ch = 54 then 68   -- 6, G#4
  else if ch = 121 then 69  -- y, A4
  else if ch = 55 then 70   -- 7, A#4
  else if ch = 117 then 71  -- u, B4
  else if ch = 105 then 72  -- i, C5
  else if ch = 57 then 73   -- 9, C#5
  else if ch = 111 then 74  -- o, D5
  else if ch = 48 then 75   -- 0, D#5
  else if ch = 112 then 76  -- p, E5
  else 0                    -- default: C0

/-- `chToDrumPitch` from the source: keyboard character to General MIDI drum
note number ('q' = bass drum 36 etc., everything else 0). -/
def chToDrumPitch (ch : Nat) : Nat :=
  if ch = 113 then 36       -- q, Bass Drum 1
  else if ch = 119 then 38  -- w, Snare Drum 1
  else if ch = 101 then 43  -- e, Low Tom 1
  else if ch = 114 then 47  -- r, Mid Tom 1
  else if ch = 116 then 50  -- t, High Tom 1
  else if ch = 121 then 42  -- y, Closed Hi-hat
  else if ch = 117 then 46  -- u, Open Hi-hat
  else if ch = 105 then 49  -- i, Crash Cymbal 1
  else if ch = 111 then 51  -- o, Ride Cymbal 1
  else if ch = 112 then 39  -- p, Hand Clap
  else 0

/-- The editor state of `main`: the `notes` array (one growable symbol list
per channel; the channel count is `notes.length` and never changes) and the
cursor `currentNote` (step index) and `currentChannel`, both C++ `int`s. -/
structure Grid where
  notes : List (List Nat)
  currentNote : Int
  currentChannel : Int
deriving DecidableEq, Repr

/-- The grid as `main` creates it: `channels` channels, each holding the
single rest symbol `' '` (32); cursor at (0, 0). -/
def initGrid (channels : Nat) : Grid :=
  ⟨List.replicate channels [32], 0, 0⟩

/-- `notes[currentChannel]` (the C++ index is an `int`; a negative or
over-long index is out-of-range UB, modelled as the empty list). -/
def curChan (g : Grid) : List Nat := g.notes.getD g.currentChannel.toNat []

/-- `notes[currentChannel].size()`. -/
def curLen (g : Grid) : Nat := (curChan g).length

/-- The shared grow step: `for (c = 0; c < channels; c++) notes[c].push_back(' ')`. -/
def growAll (g : Grid) : Grid :=
  { g with notes := g.notes.map (fun c => c ++ [32]) }

/-- KEY_DOWN / 'J': grow every channel by a rest if the cursor sits on the
last step (note the `int == size_t - 1` comparison), then
`currentNote = min((int)size - 1, currentNote + 1)`. -/
def downMove (g : Grid) : Grid :=
  let g1 := if intToSizeT g.currentNote = sizeSub (curLen g) 1 then growAll g else g
  { g1 with currentNote := min ((curLen g1 : Int) - 1) (g1.currentNote + 1) }

/-- The KEY_DC branch body when its guard holds:
`for (c = 0; c < channels; c++) notes[c].erase(notes[c].begin() + currentNote)`. -/
def deleteAll (g : Grid) : Grid :=
  { g with notes := g.notes.map (fun c => c.eraseIdx g.currentNote.toNat) }

/-- KEY_BACKSPACE (also reached by fallthrough from KEY_DC): if
`size() > 1`, erase the second-to-last entry of every channel and clamp
`currentNote`; the `else if (size() == 2)` prefix-clearing branch of the
source is reproduced verbatim even though its guard can never hold after
`!(size() > 1)`. -/
def backspaceStep (g : Grid) : Grid :=
  if curLen g > 1 then
    let g1 := { g with notes := g.notes.map (fun (c : List Nat) => c.eraseIdx (c.length - 2)) }
    { g1 with currentNote := min g1.currentNote ((curLen g1 : Int) - 1) }
  else if curLen g = 2 then
    let clearBefore := fun (c : Nat) (col : List Nat) =>
      if (c : Int) < g.currentChannel then col.set 0 32 else col
    { g with notes := g.notes.mapIdx clearBefore }
  else g

/-- The cell write `notes[currentChannel][currentNote] = ch` followed by
`currentNote++` (the indices pass through the `size_t` conversion of
`operator[]`). -/
def setCell (g1 : Grid) (ch : Nat) : Grid :=
  { g1 with
    notes := g1.notes.set g1.currentChannel.toNat
      ((curChan g1).set (intToSizeT g1.currentNote) ch),
    currentNote := g1.currentNote + 1 }

/-- The shared symbol-writing path (`case ' '`, also reached by fallthrough
from `default` for a mapped symbol): grow all channels by a rest if the
cursor is on the last step, write `ch` at the cursor, advance the cursor. -/
def writeSymbol (g : Grid) (ch : Nat) : Grid :=
  setCell (if intToSizeT g.currentNote = sizeSub (curLen g) 1 then growAll g else g) ch

/-- One iteration of the `switch (ch)` statement in `main`, for key code
`ch`.  'Q' (quit), 'E' (export) and 'P' (play) leave the grid unchanged. -/
def stepKey (g : Grid) (ch : Nat) : Grid :=
  if ch = 72 ∨ ch = 260 then        -- 'H' / KEY_LEFT
    { g with currentChannel := max 0 (g.currentChannel - 1) }
  else if ch = 76 ∨ ch = 261 then   -- 'L' / KEY_RIGHT
    { g with currentChannel := min ((g.notes.length : Int) - 1) (g.currentChannel + 1) }
  else if ch = 75 ∨ ch = 259 then   -- 'K' / KEY_UP
    { g with currentNote := max 0 (g.currentNote - 1) }
  else if ch = 74 ∨ ch = 258 then   -- 'J' / KEY_DOWN
    downMove g
  else if ch = 330 then             -- KEY_DC
    if intToSizeT g.currentNote < sizeSub (curLen g) 2 then deleteAll g
    else backspaceStep g
  else if ch = 263 then             -- KEY_BACKSPACE
    backspaceStep g
  else if ch = 81 ∨ ch = 69 ∨ ch = 80 then  -- 'Q' / 'E' / 'P': no grid change
    g
  else if ch = 32 then              -- case ' '
    writeSymbol g 32
  else if (g.currentChannel = 9 ∧ chToDrumPitch ch = 0) ∨
          (g.currentChannel ≠ 9 ∧ chToPitch ch = 0) then
    g                               -- default: unmapped symbol, ignored
  else
    writeSymbol g ch                -- default falls through into case ' '

/-- A whole key sequence fed to the editor loop. -/
def applyKeys (g : Grid) (ks : List Nat) : Grid := ks.foldl stepKey g

/-- A MIDI event as `exportMIDI` emits it (velocity, always the constant 100,
is omitted).  `timbre` is a program-change, produced by `addTimbre`; the drum
track's raw `0x99`/`0x89` byte events are note-on/note-off on channel 9. -/
inductive MEv where
  | timbre (tick channel instrument : Nat)
  | noteOn (tick channel key : Nat)
  | noteOff (tick channel key : Nat)
deriving DecidableEq, Repr

/-- The `instruments` array of `main` (the "Generic" preset). -/
def instruments : List Nat := [0, 0, 0, 0, 25, 25, 25, 25, 34, 34, 34, 34, 57, 57, 57, 57]

/-- The inner melodic loop of `exportMIDI` over the steps of one channel,
carrying the loop index `i` and `prevKey`; `len` is `notes[channel].size()`.
Ticks: `startTick = int(i / 4.0 * tpq)`; the terminal-rest release is emitted
at `startTick + int(1.0 / 4.0 * tpq)`.  Returns the emitted events and the
final `prevKey` (which the source does NOT reset per channel, nor after the
terminal-rest note-off). -/
def melodicLoop (tpq chIdx len : Nat) : Nat → List Nat → Nat → List MEv × Nat
  | _, [], prevKey => ([], prevKey)
  | i, s :: rest, prevKey =>
    let startTick := i * tpq / 4
    if s = 32 then
      let evs := if i = len - 1 ∧ prevKey ≠ 0
        then [MEv.noteOff (startTick + tpq / 4) chIdx prevKey] else []
      let r := melodicLoop tpq chIdx len (i + 1) rest prevKey
      (evs ++ r.1, r.2)
    else
      let key := chToPitch s
      let offs := if prevKey ≠ 0 then [MEv.noteOff startTick chIdx prevKey] else []
      let r := melodicLoop tpq chIdx len (i + 1) rest key
      (offs ++ MEv.noteOn startTick chIdx key :: r.1, r.2)

/-- One iteration of the melodic outer loop: `addTimbre(track, 0, channel,
instrument)` followed by the inner loop over the channel's steps. -/
def melodicChannel (tpq chIdx instrument : Nat) (steps : List Nat) (prevKey : Nat) :
    List MEv × Nat :=
  let r := melodicLoop tpq chIdx steps.length 0 steps prevKey
  (MEv.timbre 0 chIdx instrument :: r.1, r.2)

/-- The melodic outer loop of `exportMIDI` over a list of channel indices,
threading `prevKey` from one channel to the next exactly as the source does
(`prevKey` is declared outside the channel loop).  `notes[channel]` on a
channel that does not exist is out-of-bounds (modelled as `none`). -/
def melodicChannelsAux (tpq : Nat) (notes : List (List Nat)) (instrs : List Nat) :
    List Nat → Nat → Option (List MEv)
  | [], _ => some []
  | c :: cs, prevKey =>
    match notes[c]? with
    | none => none
    | some steps =>
      let r := melodicChannel tpq c (instrs.getD c 0) steps prevKey
      (melodicChannelsAux tpq notes instrs cs r.2).map (fun tl => r.1 ++ tl)

/-- The whole INSTRUMENTS section of `exportMIDI`:
`for (channel = 0; channel < 9; channel++) ...` with `prevKey` initialised to
0 once, before the loop. -/
def melodicPart (tpq : Nat) (notes : List (List Nat)) (instrs : List Nat) :
    Option (List MEv) :=
  melodicChannelsAux tpq notes instrs (List.range 9) 0

/-- The drum loop of `exportMIDI` over `drumNotes = notes[9]` with its loop
index `i`, the `noteOn` flag and `prevNote`.  A sounding previous hit is
turned off at `int(i / 4.0 * tpq - 1)` (truncation toward zero, hence the
`Nat` floor-subtraction), then the current step unconditionally fires
`NoteOn(chToDrumPitch s)` at `int(i / 4.0 * tpq)` — rests included.
Returns the events plus the final `noteOn` flag and `prevNote`. -/
def drumLoop (tpq : Nat) : Nat → List Nat → Bool → Nat → List MEv × Bool × Nat
  | _, [], noteOn, prev => ([], noteOn, prev)
  | i, s :: rest, noteOn, prev =>
    let offs := if noteOn then [MEv.noteOff (i * tpq / 4 - 1) 9 prev] else []
    let pitch := chToDrumPitch s
    let r := drumLoop tpq (i + 1) rest true pitch
    (offs ++ MEv.noteOn (i * tpq / 4) 9 pitch :: r.1, r.2)

/-- The DRUMS section of `exportMIDI`: run the loop, then, if a hit is still
sounding, emit the closing note-off at `int(i / 4 * tpq)` — where `i` is the
OUTER `int i = 0`, shadowed by the loop variable and therefore still 0 (and
`i / 4` is integer division), so the closing event sits at tick 0. -/
def drumChannel (tpq : Nat) (drumNotes : List Nat) : List MEv :=
  let r := drumLoop tpq 0 drumNotes false 0
  r.1 ++ (if r.2.1 then [MEv.noteOff (0 / 4 * tpq) 9 r.2.2] else [])

/-- `notes[9]`, out-of-bounds when fewer than 10 channels exist. -/
def drumPart (tpq : Nat) (notes : List (List Nat)) : Option (List MEv) :=
  notes[9]?.map (drumChannel tpq)

/-- `exportMIDI`: the INSTRUMENTS section (melodic channels 0–8) followed by
the DRUMS section (channel 9), in emission order (the final `sortTracks` is
the external serializer's sorting duty and is not part of the exporter
model).  The `channels` parameter of the C++ function is unused by its body
and omitted; `none` marks an out-of-bounds channel access. -/
def exportMIDI (tpq : Nat) (notes : List (List Nat)) (instrs : List Nat) :
    Option (List MEv) :=
  match melodicPart tpq notes instrs, drumPart tpq notes with
  | some m, some d => some (m ++ d)
  | _, _ => none

/-- Is the event a note-on or note-off (as opposed to a program change)? -/
def isNoteEvent : MEv → Bool
  | .timbre _ _ _ => false
  | _ => true

/-- Is the event a program change? -/
def isProgramChange : MEv → Bool
  | .timbre _ _ _ => true
  | _ => false

/-- Is the event a note-on? -/
def isNoteOnEv : MEv → Bool
  | .noteOn _ _ _ => true
  | _ => false

/-- Is the event a note-off? -/
def isNoteOffEv : MEv → Bool
  | .noteOff _ _ _ => true
  | _ => false

/-- The channel an event addresses. -/
def evChannel : MEv → Nat
  | .timbre _ c _ => c
  | .noteOn _ c _ => c
  | .noteOff _ c _ => c

/-- The note events (on/off) of one channel, in emission order. -/
def noteEventsOn (c : Nat) (evs : List MEv) : List MEv :=
  evs.filter (fun e => isNoteEvent e && evChannel e = c)

/-- A 10-channel, length-1 grid: channel 0 holds a rest, channel 1 holds 'z'
(pitch 48), all other channels hold rests. -/
def gridA : List (List Nat) :=
  [[32], [122], [32], [32], [32], [32], [32], [32], [32], [32]]

/-- Like `gridA` but channel 0 holds 'z' instead of a rest; channel 1 (and
every other channel) is identical to `gridA`'s. -/
def gridB : List (List Nat) :=
  [[122], [122], [32], [32], [32], [32], [32], [32], [32], [32]]

/-- Helper for the grid-shape invariant: growing appends one rest to every
channel, taking uniform length `L` to uniform length `L + 1`. -/
theorem allLen_growAll {g : Grid} {L : Nat} (h : ∀ c ∈ g.notes, c.length = L) :
    ∀ c ∈ (growAll g).notes, c.length = L + 1 := by
  intro c hc
  simp only [growAll, List.mem_map] at hc
  obtain ⟨a, ha, rfl⟩ := hc
  simp [h a ha]

/-- Helper: replacing one channel by a column of the same uniform length
keeps all lengths equal. -/
theorem allLen_set {l : List (List Nat)} {L : Nat} {j : Nat} {col : List Nat}
    (h : ∀ c ∈ l, c.length = L) (hcol : col.length = L) :
    ∀ c ∈ l.set j col, c.length = L := by
  intro c hc
  rcases List.mem_or_eq_of_mem_set hc with hc | rfl
  · exact h c hc
  · exact hcol

/-- Helper: the cell-writing step `notes[cc][idx] = ch` keeps all channel
lengths equal (an in-range write replaces a channel by one of equal length;
an out-of-range channel index makes the write a no-op). -/
theorem allLen_setCell (g1 : Grid) {L : Nat} (idx ch : Nat)
    (h1 : ∀ c ∈ g1.notes, c.length = L) :
    ∀ c ∈ g1.notes.set g1.currentChannel.toNat ((curChan g1).set idx ch),
      c.length = L := by
  by_cases hlt : g1.currentChannel.toNat < g1.notes.length
  · refine allLen_set h1 ?_
    rw [List.length_set]
    have hm : curChan g1 ∈ g1.notes := by
      unfold curChan
      rw [List.getD_eq_getElem?_getD, List.getElem?_eq_getElem hlt]
      exact List.getElem_mem hlt
    exact h1 _ hm
  · rw [List.set_eq_of_length_le (Nat.le_of_not_lt hlt)]
    exact h1

/-- Helper: writing a symbol (with the possible growth of all channels
first) keeps all channel lengths equal. -/
theorem allLen_writeSymbol {g : Grid} {L : Nat} (ch : Nat)
    (h : ∀ c ∈ g.notes, c.length = L) :
    ∃ M, ∀ c ∈ (writeSymbol g ch).notes, c.length = M := by
  unfold writeSymbol
  by_cases hP : intToSizeT g.currentNote = sizeSub (curLen g) 1
  · simp only [if_pos hP]
    exact ⟨L + 1, allLen_setCell (growAll g) _ ch (allLen_growAll h)⟩
  · simp only [if_neg hP]
    exact ⟨L, allLen_setCell g _ ch h⟩

/-- Helper: every single editor command keeps all channel lengths equal:
each grow/shrink loops over all channels in lock-step, and the dead
prefix-clearing branch of backspace is unreachable. -/
theorem stepKey_allLen {g : Grid} {L : Nat} (ch : Nat)
    (h : ∀ c ∈ g.notes, c.length = L) :
    ∃ M, ∀ c ∈ (stepKey g ch).notes, c.length = M := by
  have hbs : ∃ M, ∀ c ∈ (backspaceStep g).notes, c.length = M := by
    unfold backspaceStep
    split_ifs with hb1 hb2
    · refine ⟨if L - 2 < L then L - 1 else L, ?_⟩
      intro c hc
      simp only [List.mem_map] at hc
      obtain ⟨a, ha, rfl⟩ := hc
      rw [List.length_eraseIdx, h a ha]
    · omega
    · exact ⟨L, h⟩
  unfold stepKey
  split_ifs with h1 h2 h3 h4 h5 h6 h7 h8 h9
  · exact ⟨L, h⟩
  · exact ⟨L, h⟩
  · exact ⟨L, h⟩
  · unfold downMove
    by_cases hP : intToSizeT g.currentNote = sizeSub (curLen g) 1
    · simp only [if_pos hP]
      exact ⟨L + 1, allLen_growAll h⟩
    · simp only [if_neg hP]
      exact ⟨L, h⟩
  · refine ⟨if g.currentNote.toNat < L then L - 1 else L, ?_⟩
    intro c hc
    simp only [deleteAll, List.mem_map] at hc
    obtain ⟨a, ha, rfl⟩ := hc
    rw [List.length_eraseIdx, h a ha]
  · exact hbs
  · exact hbs
  · exact ⟨L, h⟩
  · exact allLen_writeSymbol 32 h
  · exact ⟨L, h⟩
  · exact allLen_writeSymbol ch h

/-- C2: for every channel count and every key sequence fed to a fresh grid,
all channels have equal length afterwards (and hence after each command,
since the sequence is arbitrary): every edit that grows or shrinks a channel
loops over all channels in lock-step. -/
theorem c2_all_channels_equal_length (channels : Nat) (ks : List Nat) :
    ∃ L, ∀ c ∈ (applyKeys (initGrid channels) ks).notes, c.length = L := by
  suffices hstep : ∀ (ks : List Nat) (g : Grid),
      (∃ L, ∀ c ∈ g.notes, c.length = L) →
      ∃ L, ∀ c ∈ (applyKeys g ks).notes, c.length = L by
    refine hstep ks (initGrid channels) ⟨1, ?_⟩
    intro c hc
    rw [List.eq_of_mem_replicate hc]
    rfl
  intro ks
  induction ks with
  | nil => exact fun g hg => hg
  | cons k ks ih =>
    rintro g ⟨L, hL⟩
    simp only [applyKeys, List.foldl_cons]
    exact ih _ (stepKey_allLen k hL)

/-- C2 witness: a sample instantiation (10 channels; type 'z', go down,
delete). -/
theorem c2_all_channels_equal_length_witness :
    ∃ L, ∀ c ∈ (applyKeys (initGrid 10) [122, 258, 330]).notes, c.length = L :=
  c2_all_channels_equal_length 10 [122, 258, 330]

/-- C1: the cursor does NOT always stay in `[0, length-1]`.  From a fresh
10-channel grid, KEY_DC's guard `currentNote < notes[ch].size() - 2` compares
`int` against wrapped `size_t` (1 - 2 = 2^64 - 1), so the only step of every
channel is erased (length 0, no valid step index remains), and the following
KEY_DOWN then sets `currentNote = min((int)0 - 1, 1) = -1`. -/
theorem c1_cursor_escapes_range :
    (applyKeys (initGrid 10) [330]).notes = List.replicate 10 [] ∧
    (applyKeys (initGrid 10) [330, 258]).currentNote = -1 := by decide

/-- C3 counterexample: for the melodic channel [z, rest, x, rest] with
tpq = 120 (quantum Q = 30), the terminal note-off lands at tick
120 = 3Q + Q (the release offset `int(1.0/4.0 * tpq)` is one full quantum),
not at 97 = 3Q + Q/4 as the claim states. -/
theorem c3_release_is_full_quantum :
    (melodicChannel 120 0 0 [122, 32, 120, 32] 0).1 =
      [MEv.timbre 0 0 0, MEv.noteOn 0 0 48, MEv.noteOff 60 0 48,
       MEv.noteOn 60 0 50, MEv.noteOff 120 0 50] ∧
    (melodicChannel 120 0 0 [122, 32, 120, 32] 0).1 ≠
      [MEv.timbre 0 0 0, MEv.noteOn 0 0 48, MEv.noteOff 60 0 48,
       MEv.noteOn 60 0 50, MEv.noteOff 97 0 50] := by decide

/-- C3 as amended: for any step quantum Q (tpq = 4Q), the melodic channel
[NoteC (z = 48), Rest, NoteD (x = 50), Rest(terminal)] exports exactly
ProgramChange@0, NoteOn(48)@0, NoteOff(48)@2Q, NoteOn(50)@2Q, and the
terminal note-off at 3Q + Q (one full quantum after the terminal rest's
tick); an internal rest emits no note-off. -/
theorem c3_scenario_a (Q chIdx instr : Nat) :
    (melodicChannel (4 * Q) chIdx instr [122, 32, 120, 32] 0).1 =
      [MEv.timbre 0 chIdx instr, MEv.noteOn 0 chIdx 48, MEv.noteOff (2 * Q) chIdx 48,
       MEv.noteOn (2 * Q) chIdx 50, MEv.noteOff (3 * Q + Q) chIdx 50] := by
  have h4 : ∀ i : Nat, i * (4 * Q) / 4 = i * Q := by
    intro i
    rw [show i * (4 * Q) = 4 * (i * Q) by ring]
    exact Nat.mul_div_cancel_left _ (by norm_num)
  have h1 : 4 * Q / 4 = Q := Nat.mul_div_cancel_left _ (by norm_num)
  simp [melodicChannel, melodicLoop, chToPitch, h4, h1]

/-- C3 witness: the amended scenario at Q = 30 (tpq = 120), channel 0,
instrument 0. -/
theorem c3_scenario_a_witness :
    (melodicChannel (4 * 30) 0 0 [122, 32, 120, 32] 0).1 =
      [MEv.timbre 0 0 0, MEv.noteOn 0 0 48, MEv.noteOff (2 * 30) 0 48,
       MEv.noteOn (2 * 30) 0 50, MEv.noteOff (3 * 30 + 30) 0 50] :=
  c3_scenario_a 30 0 0

/-- C4: the percussion scenario [q (kick 36), w (snare 38)] at tpq = 120
(Q = 30) produces NoteOn(36)@0, NoteOff(36)@29, NoteOn(38)@30 as claimed,
but the closing NoteOff(38) lands at tick 0, not at the final tick 30: the
loop shadows `int i = 0`, so the closing `int(i / 4 * tpq)` still sees i = 0
(and computes with integer division). -/
theorem c4_closing_noteoff_tick_zero :
    drumChannel 120 [113, 119] =
      [MEv.noteOn 0 9 36, MEv.noteOff 29 9 36, MEv.noteOn 30 9 38, MEv.noteOff 0 9 38] ∧
    drumChannel 120 [113, 119] ≠
      [MEv.noteOn 0 9 36, MEv.noteOff 29 9 36, MEv.noteOn 30 9 38, MEv.noteOff 30 9 38] := by
  decide

/-- C5: the melodic exporter is NOT independent per channel.  `gridA` and
`gridB` agree on channel 1 (both hold [z]) and differ only on channel 0, yet
the exported note events for channel 1 differ: `prevKey` is declared outside
the channel loop, so channel 0's still-sounding note in `gridB` leaks an
extra NoteOff(48)@0 into channel 1's events. -/
theorem c5_prevkey_shared_across_channels :
    gridA[1]? = gridB[1]? ∧
    (exportMIDI 120 gridA instruments).map (noteEventsOn 1) ≠
      (exportMIDI 120 gridB instruments).map (noteEventsOn 1) := by decide

/-- C6: the backspace-to-clear fallback never happens.  Typing 'z' (grid
length 2, channel 0 = [z, rest]), moving right to channel 1 and backspacing
erases the second-to-last step from every channel (the `size() > 1` branch),
shrinking the grid to length 1 and discarding the 'z'; the
`else if (size() == 2)` clearing branch is unreachable, so channel 0's first
cell is not cleared in place and the grid does not keep length 2. -/
theorem c6_clear_branch_dead :
    (applyKeys (initGrid 10) [122, 76]).notes[0]? = some [122, 32] ∧
    (applyKeys (initGrid 10) [122, 76, 263]).notes = List.replicate 10 [32] ∧
    (applyKeys (initGrid 10) [122, 76, 263]).currentNote = 0 := by decide

/-- C7 counterexample: exporting the fresh all-rest grid of length 1 does
emit note events: the drum loop does not skip rests, so channel 9 fires
NoteOn(0)@0 plus the closing NoteOff(0)@0 — the exported stream is not
"only ProgramChange events". -/
theorem c7_rest_grid_emits_note_events :
    (exportMIDI 120 (List.replicate 10 [32]) instruments).map
      (fun evs => evs.countP isNoteEvent) ≠ some 0 := by decide

/-- Helper: an all-rest melodic channel entered with no note sounding emits
no events at all and leaves `prevKey` at 0 (every step takes the rest branch
and the terminal-rest note-off is guarded by `prevKey != 0`). -/
theorem melodicLoop_all_rest (tpq chIdx len m : Nat) :
    ∀ i, melodicLoop tpq chIdx len i (List.replicate m 32) 0 = ([], 0) := by
  induction m with
  | zero => intro i; rfl
  | succ k ih =>
    intro i
    rw [List.replicate_succ]
    simp [melodicLoop, ih (i + 1)]

/-- Helper: one melodic channel of rests emits exactly its program change. -/
theorem melodicChannel_all_rest (tpq chIdx instr m : Nat) :
    melodicChannel tpq chIdx instr (List.replicate m 32) 0 =
      ([MEv.timbre 0 chIdx instr], 0) := by
  simp [melodicChannel, melodicLoop_all_rest]

/-- Helper: the melodic outer loop over in-range all-rest channels emits
exactly one program change per channel. -/
theorem melodicChannelsAux_all_rest (tpq : Nat) (notes : List (List Nat))
    (instrs : List Nat) (cs : List Nat)
    (hall : ∀ c ∈ cs, ∃ m, notes[c]? = some (List.replicate m 32)) :
    melodicChannelsAux tpq notes instrs cs 0 =
      some (cs.map (fun c => MEv.timbre 0 c (instrs.getD c 0))) := by
  induction cs with
  | nil => rfl
  | cons c cs ih =>
    obtain ⟨m, hm⟩ := hall c (List.mem_cons_self c cs)
    have hrest := ih (fun x hx => hall x (List.mem_cons_of_mem _ hx))
    simp [melodicChannelsAux, hm, melodicChannel_all_rest, hrest]

/-- Helper: drum-loop event counts.  Every step fires one note-on; a
note-off precedes every step except a first step entered with no hit
sounding; nothing in the loop is a program change; the final `noteOn` flag
records whether the loop is entered with a sounding hit or fires at all. -/
theorem drumLoop_counts (tpq : Nat) (steps : List Nat) :
    ∀ (i : Nat) (b : Bool) (p : Nat),
      (drumLoop tpq i steps b p).1.countP isNoteOnEv = steps.length ∧
      (drumLoop tpq i steps b p).1.countP isNoteOffEv =
        (if steps.isEmpty then 0 else steps.length - 1 + (if b then 1 else 0)) ∧
      (drumLoop tpq i steps b p).1.countP isProgramChange = 0 ∧
      (drumLoop tpq i steps b p).2.1 = (b || !steps.isEmpty) := by
  induction steps with
  | nil => intro i b p; simp [drumLoop]
  | cons s rest ih =>
    intro i b p
    obtain ⟨h1, h2, h3, h4⟩ := ih (i + 1) true (chToDrumPitch s)
    cases b <;>
      cases rest <;>
        simp_all [drumLoop, List.countP_cons, List.countP_append,
          isNoteOnEv, isNoteOffEv, isProgramChange]

/-- Helper: the drum track fires exactly one note-on and one note-off per
step (rests included: `chToDrumPitch ' '` = 0 still fires) and contains no
program change. -/
theorem drumChannel_counts (tpq : Nat) (steps : List Nat) :
    (drumChannel tpq steps).countP isNoteOnEv = steps.length ∧
    (drumChannel tpq steps).countP isNoteOffEv = steps.length ∧
    (drumChannel tpq steps).countP isProgramChange = 0 := by
  obtain ⟨h1, h2, h3, h4⟩ := drumLoop_counts tpq steps 0 false 0
  cases steps with
  | nil =>
    simp_all [drumChannel, List.countP_append]
  | cons s rest =>
    simp_all [drumChannel, List.countP_append, List.countP_cons,
      isNoteOnEv, isNoteOffEv, isProgramChange]

/-- C7 as amended: exporting the all-rest 10-channel grid of any length n
yields exactly 9 program changes (one per melodic channel, with zero melodic
note events), while the percussion channel still contributes n note-ons
(pitch 0 — rests are not skipped) and n note-offs. -/
theorem c7_all_rest_export (tpq n : Nat) :
    (exportMIDI tpq (List.replicate 10 (List.replicate n 32)) instruments).map
      (fun evs =>
        (evs.countP isProgramChange, evs.countP isNoteOnEv, evs.countP isNoteOffEv)) =
      some (9, n, n) := by
  have hm : melodicPart tpq (List.replicate 10 (List.replicate n 32)) instruments =
      some ((List.range 9).map (fun c => MEv.timbre 0 c (instruments.getD c 0))) := by
    refine melodicChannelsAux_all_rest _ _ _ _ ?_
    intro c hc
    refine ⟨n, ?_⟩
    rw [List.getElem?_replicate, if_pos (by have := List.mem_range.mp hc; omega)]
  have hd : drumPart tpq (List.replicate 10 (List.replicate n 32)) =
      some (drumChannel tpq (List.replicate n 32)) := by
    unfold drumPart
    rw [List.getElem?_replicate, if_pos (by norm_num)]
    rfl
  have hM1 : ((List.range 9).map
      (fun c => MEv.timbre 0 c (instruments.getD c 0))).countP isProgramChange = 9 := by
    decide
  have hM2 : ((List.range 9).map
      (fun c => MEv.timbre 0 c (instruments.getD c 0))).countP isNoteOnEv = 0 := by
    decide
  have hM3 : ((List.range 9).map
      (fun c => MEv.timbre 0 c (instruments.getD c 0))).countP isNoteOffEv = 0 := by
    decide
  obtain ⟨hc1, hc2, hc3⟩ := drumChannel_counts tpq (List.replicate n 32)
  unfold exportMIDI
  rw [hm, hd]
  simp only [Option.map_some]
  refine congrArg some ?_
  beta_reduce
  rw [List.countP_append, List.countP_append, List.countP_append,
    hM1, hM2, hM3, hc1, hc2, hc3, List.length_replicate]
  simp

/-- C7 witness: the amended statement at tpq = 120, length n = 5 (the
spec's Scenario D grid). -/
theorem c7_all_rest_export_witness :
    (exportMIDI 120 (List.replicate 10 (List.replicate 5 32)) instruments).map
      (fun evs =>
        (evs.countP isProgramChange, evs.countP isNoteOnEv, evs.countP isNoteOffEv)) =
      some (9, 5, 5) :=
  c7_all_rest_export 120 5

/-- C8 counterexample: with 8 channels (inside the claim's "supported range
8–10") `exportMIDI` reads `notes[8]` and `notes[9]`, which do not exist —
the export accesses a channel outside `[0, channelCount-1]` (modelled as
`none`). -/
theorem c8_export_reads_missing_channel :
    exportMIDI 120 (List.replicate 8 [32]) instruments = none := by decide

/-- Helper: the melodic outer loop succeeds (accesses only existing
channels) whenever every listed channel index is in range, whatever the
incoming `prevKey`. -/
theorem melodicChannelsAux_isSome (tpq : Nat) (notes : List (List Nat))
    (instrs : List Nat) (cs : List Nat) (hall : ∀ c ∈ cs, c < notes.length) :
    ∀ p, (melodicChannelsAux tpq notes instrs cs p).isSome := by
  induction cs with
  | nil => intro p; rfl
  | cons c cs ih =>
    intro p
    have hc : c < notes.length := hall c (List.mem_cons_self c cs)
    have hih := ih (fun x hx => hall x (List.mem_cons_of_mem _ hx))
    simp only [melodicChannelsAux, List.getElem?_eq_getElem hc]
    cases hx : melodicChannelsAux tpq notes instrs cs
        (melodicChannel tpq c (instrs.getD c 0) notes[c] p).2 with
    | none =>
      have hcontra := hih (melodicChannel tpq c (instrs.getD c 0) notes[c] p).2
      rw [hx] at hcontra
      simp at hcontra
    | some tl => rfl

/-- C8 as amended: `exportMIDI` unconditionally reads melodic channels 0–8
and the percussion channel 9, so whenever the grid has at least 10 channels
(e.g. the default channel count 10) every channel it reads exists and the
export produces an event sequence. -/
theorem c8_export_succeeds (tpq : Nat) (notes : List (List Nat))
    (instrs : List Nat) (h : 10 ≤ notes.length) :
    (exportMIDI tpq notes instrs).isSome := by
  have hm := melodicChannelsAux_isSome tpq notes instrs (List.range 9)
    (fun c hc => by have := List.mem_range.mp hc; omega) 0
  obtain ⟨m, hm'⟩ := Option.isSome_iff_exists.mp hm
  have h9 : 9 < notes.length := by omega
  unfold exportMIDI melodicPart drumPart
  rw [hm', List.getElem?_eq_getElem h9]
  rfl

/-- C8 witness: the amended theorem applied to the default fresh 10-channel
grid. -/
theorem c8_export_succeeds_witness :
    10 ≤ (List.replicate 10 ([32] : List Nat)).length ∧
    (exportMIDI 120 (List.replicate 10 [32]) instruments).isSome :=
  ⟨by decide, c8_export_succeeds 120 (List.replicate 10 [32]) instruments (by decide)⟩

/-- C9: KEY_DC on a fresh length-1 grid does NOT behave like backspace.  The
cursor (index 0 = length - 1) is within the last two positions, so the claim
requires the backspace fallback (a no-op at length 1, second conjunct); but
the wrapped unsigned guard `0 < size_t(1 - 2)` passes and the code erases the
only step from every channel instead. -/
theorem c9_delete_at_length_one :
    (stepKey (initGrid 10) 330).notes = List.replicate 10 [] ∧
    stepKey (initGrid 10) 263 = initGrid 10 := by decide

/-- Helper: converting a non-negative `int` below 2^64 to `size_t` is the
identity. -/
theorem intToSizeT_of_nonneg {i : Int} (h0 : 0 ≤ i) (h1 : i < (sizeTMod : Int)) :
    intToSizeT i = i.toNat := by
  unfold intToSizeT
  rw [Int.emod_eq_of_lt h0 h1]

/-- Helper: `size() - 1` in wrapping `size_t` arithmetic is the ordinary
`len - 1` for a non-empty vector of sane size. -/
theorem sizeSub_one {len : Nat} (h1 : 1 ≤ len) (h2 : len < sizeTMod) :
    sizeSub len 1 = len - 1 := by
  simp only [sizeSub, sizeTMod] at h2 ⊢
  rw [show len + 18446744073709551616 - 1 = (len - 1) + 18446744073709551616 by omega,
    Nat.add_mod_right]
  exact Nat.mod_eq_of_lt (by omega)

/-- Helper: reading back an in-range set cell. -/
theorem getD_set_self {α : Type} (l : List α) (n : Nat) (a d : α)
    (h : n < l.length) : (l.set n a).getD n d = a := by
  rw [List.getD_eq_getElem?_getD, List.getElem?_set_self h]
  rfl

/-- C10: a typed symbol that is neither a command key nor the rest is a
complete no-op (state unchanged) whenever it is unmapped for the active
lane (`chToDrumPitch` = 0 on the percussion lane 9, `chToPitch` = 0 on a
melodic lane); and the rest symbol (space, 32) is always accepted in either
lane: it is written at the cursor cell and the cursor advances by one.  The
cursor hypotheses say the cursor addresses an existing cell of a channel of
sane (< 2^64) length. -/
theorem c10_unmapped_symbol_noop (g : Grid) (ch : Nat)
    (hkey : ch ∉ ([72, 260, 76, 261, 75, 259, 74, 258, 330, 263, 81, 69, 80] : List Nat))
    (hsp : ch ≠ 32)
    (hun : (g.currentChannel = 9 ∧ chToDrumPitch ch = 0) ∨
           (g.currentChannel ≠ 9 ∧ chToPitch ch = 0))
    (hcc : g.currentChannel.toNat < g.notes.length)
    (hnn : 0 ≤ g.currentNote)
    (hcn : g.currentNote.toNat < curLen g)
    (hsane : curLen g < sizeTMod) :
    stepKey g ch = g ∧
    ((stepKey g 32).notes.getD g.currentChannel.toNat []).getD g.currentNote.toNat 0 = 32 ∧
    (stepKey g 32).currentNote = g.currentNote + 1 := by
  simp only [List.mem_cons, List.not_mem_nil, or_false, not_or] at hkey
  have hstep : stepKey g 32 = writeSymbol g 32 := by
    unfold stepKey
    rw [if_neg (by decide), if_neg (by decide), if_neg (by decide), if_neg (by decide),
      if_neg (by decide), if_neg (by decide), if_neg (by decide), if_pos rfl]
  have hi2s : intToSizeT g.currentNote = g.currentNote.toNat := by
    refine intToSizeT_of_nonneg hnn ?_
    have h1 := Int.toNat_of_nonneg hnn
    have h2 : (g.currentNote.toNat : Int) < (curLen g : Int) := by exact_mod_cast hcn
    have h3 : (curLen g : Int) < (sizeTMod : Int) := by exact_mod_cast hsane
    have h4 : (g.currentNote.toNat : Int) < (sizeTMod : Int) := lt_trans h2 h3
    rw [h1] at h4
    exact h4
  have hss : sizeSub (curLen g) 1 = curLen g - 1 := sizeSub_one (by omega) hsane
  obtain ⟨k1, k2, k3, k4, k5, k6, k7, k8, k9, k10, k11, k12, k13⟩ := hkey
  refine ⟨?_, ?_, ?_⟩
  · unfold stepKey
    rw [if_neg (fun h => h.elim k1 k2), if_neg (fun h => h.elim k3 k4),
      if_neg (fun h => h.elim k5 k6), if_neg (fun h => h.elim k7 k8),
      if_neg k9, if_neg k10,
      if_neg (fun h => h.elim k11 (fun h2 => h2.elim k12 k13)),
      if_neg hsp, if_pos hun]
  · rw [hstep]
    simp only [writeSymbol, setCell]
    rw [hi2s, hss]
    by_cases hend : g.currentNote.toNat = curLen g - 1
    · rw [if_pos hend]
      rw [show (growAll g).currentNote = g.currentNote from rfl,
        show (growAll g).currentChannel = g.currentChannel from rfl, hi2s]
      have hcurchan : curChan (growAll g) = curChan g ++ [32] := by
        unfold curChan growAll
        simp only [List.getD_eq_getElem?_getD, List.getElem?_map,
          List.getElem?_eq_getElem hcc]
        rfl
      have hout : g.currentChannel.toNat < (growAll g).notes.length := by
        simpa [growAll] using hcc
      rw [getD_set_self _ _ _ _ hout]
      refine getD_set_self _ _ _ _ ?_
      rw [hcurchan, List.length_append]
      have hcl : (curChan g).length = curLen g := rfl
      simp only [hcl, List.length_cons, List.length_nil]
      omega
    · rw [if_neg hend, hi2s]
      rw [getD_set_self _ _ _ _ hcc]
      exact getD_set_self _ _ _ _ hcn
  · rw [hstep]
    simp only [writeSymbol, setCell]
    split <;> rfl

set_option maxRecDepth 8000 in
/-- C10 witness: on the fresh 10-channel grid (melodic lane 0), the letter
'a' (97) has no pitch mapping and is dropped, while space is written at the
cursor and the cursor advances. -/
theorem c10_unmapped_symbol_noop_witness :
    (97 ∉ ([72, 260, 76, 261, 75, 259, 74, 258, 330, 263, 81, 69, 80] : List Nat)) ∧
    (97 ≠ 32) ∧
    (((initGrid 10).currentChannel = 9 ∧ chToDrumPitch 97 = 0) ∨
      ((initGrid 10).currentChannel ≠ 9 ∧ chToPitch 97 = 0)) ∧
    ((initGrid 10).currentChannel.toNat < (initGrid 10).notes.length) ∧
    (0 ≤ (initGrid 10).currentNote) ∧
    ((initGrid 10).currentNote.toNat < curLen (initGrid 10)) ∧
    (curLen (initGrid 10) < sizeTMod) ∧
    (stepKey (initGrid 10) 97 = initGrid 10 ∧
      ((stepKey (initGrid 10) 32).notes.getD (initGrid 10).currentChannel.toNat []).getD
        (initGrid 10).currentNote.toNat 0 = 32 ∧
      (stepKey (initGrid 10) 32).currentNote = (initGrid 10).currentNote + 1) :=
  ⟨by decide, by decide, by decide, by decide, by decide, by decide, by decide,
    c10_unmapped_symbol_noop (initGrid 10) 97 (by decide) (by decide) (by decide)
      (by decide) (by decide) (by decide) (by decide)⟩

end Musicli
